import Mathlib

/-!
Shallow embedding of the MovieMate recommender (src/app.py) and proofs of
its specification claims.

The embedding covers:
* `fetch_movie_details` (app.py lines 48-86): metadata fetch with the
  no-API-key fallback, the network-failure fallback, and the success-path
  field mapping.  The upstream HTTP outcome is abstracted as an `Upstream`
  value (success payload / timeout / connection error / non-2xx status).
* `recommend` (app.py lines 88-104): title lookup in the catalog, the
  `sorted(list(enumerate(distances)), reverse=True)[1:6]` neighbour
  selection (Python sorts the (index, score) tuples lexicographically,
  there is no sort key), and the name/details aggregation, with every
  exception path collapsing to `([], [])` as in the `try/except` block.

Python floats are modelled as rationals; Python `round(x, 1)` is modelled
as round-half-to-even of `10*x` divided by 10.
-/

namespace MovieMate

/-- One row of `movie_list` (the pandas frame): positional index is the
list position, columns `movie_id` and `title`. -/
structure MovieEntry where
  movie_id : ℕ
  title : String
deriving DecidableEq, Repr

/-- A JSON-ish value as it appears in snapshot fields: the Python dict
values are strings, numbers or `None`. -/
inductive JVal where
  | null : JVal
  | str (s : String) : JVal
  | num (q : ℚ) : JVal
deriving DecidableEq, Repr

/-- The dict returned by `fetch_movie_details`: keys `poster_path`,
`overview`, `release_date`, `rating`, `runtime` are always present. -/
structure MetadataSnapshot where
  poster_path : String
  overview : JVal
  release_date : JVal
  rating : ℚ
  runtime : JVal
deriving DecidableEq, Repr

/-- The JSON body of a 2xx TMDB response, restricted to the fields the
code reads.  For each field the outer `Option` is key presence
(`none` = key absent, so Python `dict.get` falls back to its default);
the inner value is the JSON value, where `none` models JSON `null`.
`vote_average` is a number when present; `runtime` a number or null. -/
structure TMDBData where
  poster_path : Option (Option String) := none
  overview : Option (Option String) := none
  release_date : Option (Option String) := none
  vote_average : Option ℚ := none
  runtime : Option (Option ℚ) := none
deriving DecidableEq, Repr

/-- Outcome of the HTTP interaction in `fetch_movie_details`:
a 2xx response with a JSON body, or one of the transport-level failures
that `requests` raises as `RequestException` (caught at line 78). -/
inductive Upstream where
  | success (data : TMDBData) : Upstream
  | timeout : Upstream
  | connectionError : Upstream
  | httpStatusError : Upstream
deriving DecidableEq, Repr

/-- The transport-level failure outcomes (everything except a 2xx
response): these reach the `except requests.exceptions.RequestException`
handler at app.py line 78. -/
def Upstream.isTransportFailure : Upstream → Bool
  | .success _ => false
  | _ => true

/-- Python truthiness of the `api_key` value (a string or `None`):
`not api_key` is true exactly when the key is `None` or empty. -/
def keyFalsy : Option String → Bool
  | none => true
  | some s => s = ""

/-- Python `d.get(k)` for a key whose JSON value is a string-or-null:
absent key and JSON null both come back as Python `None`. -/
def pyGet (field : Option (Option String)) : Option String :=
  field.getD none

/-- Round-half-to-even on ℚ (the rounding mode of Python `round`). -/
def roundHalfEven (q : ℚ) : ℤ :=
  let f : ℤ := q.floor
  if q - f < 1/2 then f
  else if 1/2 < q - f then f + 1
  else if f % 2 = 0 then f else f + 1

/-- Python `round(x, 1)` on our rational model of floats. -/
def pyRound1 (q : ℚ) : ℚ :=
  (roundHalfEven (10 * q) : ℚ) / 10

/-- The fallback dict returned at app.py lines 50-56 when no API key is
configured. -/
def noApiKeyFallback : MetadataSnapshot :=
  { poster_path := "https://via.placeholder.com/500x750?text=No+API+Key"
    overview := .str "API key not configured"
    release_date := .str "Unknown"
    rating := 0
    runtime := .str "N/A" }

/-- The fallback dict returned at app.py lines 80-86 on a
`RequestException`. -/
def networkFailureFallback : MetadataSnapshot :=
  { poster_path := "https://via.placeholder.com/500x750?text=No+Image+Available"
    overview := .str "Unable to fetch movie details"
    release_date := .str "Unknown"
    rating := 0
    runtime := .str "N/A" }

/-- The success-path mapping at app.py lines 66-77. -/
def successSnapshot (data : TMDBData) : MetadataSnapshot :=
  let poster_path := pyGet data.poster_path
  let poster_url :=
    match poster_path with
    | some s =>
        if s = "" then "https://via.placeholder.com/500x750?text=No+Image+Available"
        else "https://image.tmdb.org/t/p/w500/" ++ s
    | none => "https://via.placeholder.com/500x750?text=No+Image+Available"
  { poster_path := poster_url
    overview :=
      match data.overview with
      | none => .str "No overview available"
      | some none => .null
      | some (some s) => .str s
    release_date :=
      match data.release_date with
      | none => .str "Release date unknown"
      | some none => .null
      | some (some s) => .str s
    rating := pyRound1 (data.vote_average.getD 0)
    runtime :=
      match data.runtime with
      | none => .str "N/A"
      | some none => .null
      | some (some q) => .num q }

/-- `fetch_movie_details` (app.py lines 48-86).  `api_key` is the module
global; the HTTP call and its failure modes are abstracted by `up`.
The `movie_id` only feeds the request URL, so the result cannot depend
on it. -/
def fetch_movie_details (api_key : Option String) (movie_id : ℕ)
    (up : Upstream) : MetadataSnapshot :=
  if keyFalsy api_key then noApiKeyFallback
  else
    match up with
    | .success data => successSnapshot data
    | _ =>
      -- st.warning mentions movie_id; the returned dict does not.
      let _ := movie_id
      networkFailureFallback

/-- Python tuple comparison `<` on (index, score) pairs: lexicographic. -/
def tupLt (a b : ℕ × ℚ) : Prop :=
  a.1 < b.1 ∨ (a.1 = b.1 ∧ a.2 < b.2)

instance : DecidableRel tupLt := fun a b => by
  unfold tupLt; infer_instance

/-- Insert into a descending list, keeping equal elements in first-seen
order, as Python `sorted(..., reverse=True)` does. -/
def insertDesc (a : ℕ × ℚ) : List (ℕ × ℚ) → List (ℕ × ℚ)
  | [] => [a]
  | b :: t => if tupLt a b then b :: insertDesc a t else a :: b :: t

/-- `sorted(l, reverse=True)` on (index, score) tuples: stable sort into
descending lexicographic order. -/
def pySortDesc : List (ℕ × ℚ) → List (ℕ × ℚ)
  | [] => []
  | a :: t => insertDesc a (pySortDesc t)

/-- `movies_list[movies_list['title'] == movie].index[0]`: positional
index of the first row whose title equals `movie`; `none` models the
`IndexError` on an empty selection. -/
def titleIndex (movie : String) : List MovieEntry → Option ℕ
  | [] => none
  | e :: t =>
      if e.title = movie then some 0
      else (titleIndex movie t).map (· + 1)

/-- `movies_list.iloc[i]` for each index in turn; `none` models the
`IndexError` raised by any out-of-range positional access, which aborts
the whole loop (the `try` wraps it all). -/
def ilocAll (movies_list : List MovieEntry) : List ℕ → Option (List MovieEntry)
  | [] => some []
  | i :: t =>
      match movies_list.get? i, ilocAll movies_list t with
      | some e, some es => some (e :: es)
      | _, _ => none

/-- `recommend` (app.py lines 88-104).  `movies_list` and `similarity`
are the module globals; `fetchDetails` stands for `fetch_movie_details`
with the ambient key and network state fixed.  Every exception path of
the Python `try` block returns `([], [])`. -/
def recommend (movies_list : List MovieEntry) (similarity : List (List ℚ))
    (fetchDetails : ℕ → MetadataSnapshot) (movie : String) :
    List String × List MetadataSnapshot :=
  match titleIndex movie movies_list with
  | none => ([], [])
  | some movie_index =>
    match similarity.get? movie_index with
    | none => ([], [])
    | some distances =>
      let movies_list_recommended :=
        ((pySortDesc distances.enum).drop 1).take 5
      match ilocAll movies_list (movies_list_recommended.map Prod.fst) with
      | none => ([], [])
      | some rows =>
          (rows.map MovieEntry.title,
           rows.map (fun e => fetchDetails e.movie_id))

/-- The six-entry catalog of the spec scenario: titles A..F at
indices 0..5. -/
def catalogABCDEF : List MovieEntry :=
  [⟨10, "A"⟩, ⟨11, "B"⟩, ⟨12, "C"⟩, ⟨13, "D"⟩, ⟨14, "E"⟩, ⟨15, "F"⟩]

/-- Similarity matrix for the scenario: only the row of "A" matters. -/
def simABCDEF : List (List ℚ) :=
  [[1, 9/10, 4/5, 7/10, 3/5, 1/2],
   [9/10, 1, 0, 0, 0, 0],
   [4/5, 0, 1, 0, 0, 0],
   [7/10, 0, 0, 1, 0, 0],
   [3/5, 0, 0, 0, 1, 0],
   [1/2, 0, 0, 0, 0, 1]]

/-! ### Helper lemmas -/

theorem insertDesc_of_forall_lt (x : ℕ × ℚ) :
    ∀ L : List (ℕ × ℚ), (∀ b ∈ L, tupLt x b) → insertDesc x L = L ++ [x] := by
  intro L
  induction L with
  | nil => intro _; rfl
  | cons b t ih =>
      intro h
      have hb : tupLt x b := h b (by simp)
      simp only [insertDesc, if_pos hb, List.cons_append, List.cons.injEq, true_and]
      exact ih fun c hc => h c (by simp [hc])

theorem mem_enumFrom_bounds {l : List ℚ} :
    ∀ {k : ℕ} {b : ℕ × ℚ}, b ∈ l.enumFrom k → k ≤ b.1 ∧ b.1 < k + l.length := by
  induction l with
  | nil => intro k b h; simp [List.enumFrom] at h
  | cons a t ih =>
      intro k b h
      simp only [List.enumFrom, List.mem_cons] at h
      rcases h with h | h
      · subst h; simp
      · have := ih h
        simp only [List.length_cons]
        omega

theorem pySortDesc_enumFrom (l : List ℚ) :
    ∀ k : ℕ, pySortDesc (l.enumFrom k) = (l.enumFrom k).reverse := by
  induction l with
  | nil => intro k; rfl
  | cons a t ih =>
      intro k
      have hlt : ∀ b ∈ (t.enumFrom (k + 1)).reverse, tupLt (k, a) b := by
        intro b hb
        rw [List.mem_reverse] at hb
        exact Or.inl (by have := mem_enumFrom_bounds hb; omega)
      calc pySortDesc ((a :: t).enumFrom k)
      _ = insertDesc (k, a) (pySortDesc (t.enumFrom (k + 1))) := rfl
      _ = insertDesc (k, a) ((t.enumFrom (k + 1)).reverse) := by rw [ih]
      _ = (t.enumFrom (k + 1)).reverse ++ [(k, a)] := insertDesc_of_forall_lt _ _ hlt
      _ = ((a :: t).enumFrom k).reverse := by simp [List.enumFrom]

theorem pySortDesc_enum (l : List ℚ) : pySortDesc l.enum = l.enum.reverse :=
  pySortDesc_enumFrom l 0

/-- Default row used only to state total lookups. -/
def defaultEntry : MovieEntry := ⟨0, ""⟩

theorem ilocAll_eq_map (movies_list : List MovieEntry) :
    ∀ idxs : List ℕ, (∀ i ∈ idxs, i < movies_list.length) →
      ilocAll movies_list idxs =
        some (idxs.map fun i => (movies_list.get? i).getD defaultEntry) := by
  intro idxs
  induction idxs with
  | nil => intro _; rfl
  | cons i t ih =>
      intro h
      have hi : i < movies_list.length := h i (by simp)
      cases hg : movies_list.get? i with
      | none =>
          exfalso
          rw [List.get?_eq_none] at hg
          omega
      | some e =>
          simp only [ilocAll, hg, ih fun j hj => h j (by simp [hj]), List.map_cons,
            Option.getD_some]

theorem titleIndex_lt_length {movie : String} :
    ∀ {movies_list : List MovieEntry} {i : ℕ},
      titleIndex movie movies_list = some i → i < movies_list.length := by
  intro movies_list
  induction movies_list with
  | nil => intro i h; simp [titleIndex] at h
  | cons e t ih =>
      intro i h
      by_cases he : e.title = movie
      · simp only [titleIndex, if_pos he, Option.some.injEq] at h
        simp only [List.length_cons]
        omega
      · simp only [titleIndex, if_neg he, Option.map_eq_some'] at h
        obtain ⟨j, hj, rfl⟩ := h
        have := ih hj
        simp only [List.length_cons]
        omega

theorem titleIndex_eq_none {movie : String} :
    ∀ {movies_list : List MovieEntry},
      (∀ e ∈ movies_list, e.title ≠ movie) → titleIndex movie movies_list = none := by
  intro movies_list
  induction movies_list with
  | nil => intro _; rfl
  | cons e t ih =>
      intro h
      have he : e.title ≠ movie := h e (by simp)
      simp only [titleIndex, if_neg he, ih fun x hx => h x (by simp [hx]), Option.map_none']

theorem titleIndex_isSome_of_mem {movie : String} :
    ∀ {movies_list : List MovieEntry},
      (∃ e ∈ movies_list, e.title = movie) → ∃ i, titleIndex movie movies_list = some i := by
  intro movies_list
  induction movies_list with
  | nil => intro h; simp at h
  | cons e t ih =>
      intro h
      by_cases he : e.title = movie
      · exact ⟨0, by simp [titleIndex, he]⟩
      · obtain ⟨x, hx, hxt⟩ := h
        rcases List.mem_cons.mp hx with rfl | hx
        · exact absurd hxt he
        · obtain ⟨i, hi⟩ := ih ⟨x, hx, hxt⟩
          exact ⟨i + 1, by simp [titleIndex, if_neg he, hi]⟩

/-- The index positions that `recommend` actually selects from a catalog
whose similarity row has length `n`: positions in descending order, with
the largest one dropped, then the next five. -/
def selectedIdxs (n : ℕ) : List ℕ :=
  (((List.range n).reverse).drop 1).take 5

theorem selectedIdxs_lt {n j : ℕ} (h : j ∈ selectedIdxs n) : j < n := by
  have h1 : j ∈ (List.range n).reverse :=
    List.mem_of_mem_drop (List.mem_of_mem_take h)
  rw [List.mem_reverse, List.mem_range] at h1
  exact h1

theorem recommend_eq (movies_list : List MovieEntry) (similarity : List (List ℚ))
    (fetchDetails : ℕ → MetadataSnapshot) (movie : String) (i : ℕ) (row : List ℚ)
    (hidx : titleIndex movie movies_list = some i)
    (hrow : similarity.get? i = some row)
    (hlen : row.length ≤ movies_list.length) :
    recommend movies_list similarity fetchDetails movie =
      ((selectedIdxs row.length).map
         (fun j => ((movies_list.get? j).getD defaultEntry).title),
       (selectedIdxs row.length).map
         (fun j => fetchDetails ((movies_list.get? j).getD defaultEntry).movie_id)) := by
  have hfst : (((pySortDesc row.enum).drop 1).take 5).map Prod.fst
      = selectedIdxs row.length := by
    rw [pySortDesc_enum, List.map_take, List.map_drop, List.map_reverse,
      List.enum_map_fst]
    rfl
  have hmem : ∀ j ∈ (((pySortDesc row.enum).drop 1).take 5).map Prod.fst,
      j < movies_list.length := by
    intro j hj
    rw [hfst] at hj
    exact lt_of_lt_of_le (selectedIdxs_lt hj) hlen
  have hiloc := ilocAll_eq_map movies_list
    ((((pySortDesc row.enum).drop 1).take 5).map Prod.fst) hmem
  rw [hfst] at hiloc
  simp only [recommend, hidx, hrow, hfst, hiloc, List.map_map]
  rfl

theorem ratFloor_eq_intFloor (q : ℚ) : q.floor = ⌊q⌋ := by
  rw [Rat.floor_def', Rat.floor_def]

theorem roundHalfEven_nonneg {q : ℚ} (h : 0 ≤ q) : 0 ≤ roundHalfEven q := by
  have hf : (0 : ℤ) ≤ ⌊q⌋ := Int.floor_nonneg.mpr h
  simp only [roundHalfEven, ratFloor_eq_intFloor]
  split_ifs <;> omega

theorem roundHalfEven_le {q : ℚ} {n : ℤ} (h : q ≤ (n : ℚ)) :
    roundHalfEven q ≤ n := by
  have hfl : ⌊q⌋ ≤ n := by
    have h2 : (⌊q⌋ : ℚ) ≤ (n : ℚ) := le_trans (Int.floor_le q) h
    exact_mod_cast h2
  simp only [roundHalfEven, ratFloor_eq_intFloor]
  split_ifs with h1 h2 h3
  · exact hfl
  · have hkey : ⌊q⌋ < n := by
      have hhalf : (1 : ℚ)/2 ≤ q - ⌊q⌋ := not_lt.mp h1
      have hcast : (⌊q⌋ : ℚ) < (n : ℚ) := by linarith
      exact_mod_cast hcast
    omega
  · exact hfl
  · have hkey : ⌊q⌋ < n := by
      have hhalf : (1 : ℚ)/2 ≤ q - ⌊q⌋ := not_lt.mp h1
      have hcast : (⌊q⌋ : ℚ) < (n : ℚ) := by linarith
      exact_mod_cast hcast
    omega

theorem pyRound1_nonneg {q : ℚ} (h : 0 ≤ q) : 0 ≤ pyRound1 q := by
  have h10 : (0 : ℤ) ≤ roundHalfEven (10 * q) := roundHalfEven_nonneg (by linarith)
  unfold pyRound1
  have : (0 : ℚ) ≤ (roundHalfEven (10 * q) : ℚ) := by exact_mod_cast h10
  positivity

theorem pyRound1_le_ten {q : ℚ} (h : q ≤ 10) : pyRound1 q ≤ 10 := by
  have h100 : roundHalfEven (10 * q) ≤ (100 : ℤ) :=
    roundHalfEven_le (by push_cast; linarith)
  unfold pyRound1
  rw [div_le_iff₀ (by norm_num : (0 : ℚ) < 10)]
  calc ((roundHalfEven (10 * q)) : ℚ) ≤ 100 := by exact_mod_cast h100
    _ = 10 * 10 := by norm_num

/-! ### Claim theorems -/

/-- C1: the spec scenario claims that on the catalog A..F whose similarity
row for "A" is [1.0, 0.9, 0.8, 0.7, 0.6, 0.5], `recommend("A")` returns
["B", "C", "D", "E", "F"].  The code actually returns
["E", "D", "C", "B", "A"]: `sorted(list(enumerate(distances)), reverse=True)`
has no key, so it sorts the (index, score) tuples lexicographically, i.e.
by index descending, and even returns the query "A" itself. -/
theorem C1_code_result :
    (recommend catalogABCDEF simABCDEF (fun _ => networkFailureFallback) "A").1
        = ["E", "D", "C", "B", "A"] ∧
      (["E", "D", "C", "B", "A"] : List String) ≠ ["B", "C", "D", "E", "F"] := by
  decide

/-- C2 counterexample: the claimed score-descending neighbour ordering
would return ["B", "C", "D", "E", "F"] on the spec scenario, but the code
does not. -/
theorem C2_counterexample :
    (recommend catalogABCDEF simABCDEF (fun _ => networkFailureFallback) "A").1
      ≠ ["B", "C", "D", "E", "F"] := by
  decide

/-- C2 (amended): for every title present in the catalog, the neighbour
selection orders the (index, score) pairs of the query's similarity row
by index descending (the tuple sort compares indices first and they are
distinct, so the score never decides), drops the first ranked entry (the
one with the largest index, not the query), and returns the next five
entries' catalog data in that order. -/
theorem C2_amended_order (movies_list : List MovieEntry)
    (similarity : List (List ℚ)) (fetchDetails : ℕ → MetadataSnapshot)
    (movie : String) (i : ℕ) (row : List ℚ)
    (hidx : titleIndex movie movies_list = some i)
    (hrow : similarity.get? i = some row)
    (hlen : row.length ≤ movies_list.length) :
    recommend movies_list similarity fetchDetails movie =
      ((selectedIdxs row.length).map
         (fun j => ((movies_list.get? j).getD defaultEntry).title),
       (selectedIdxs row.length).map
         (fun j => fetchDetails ((movies_list.get? j).getD defaultEntry).movie_id)) :=
  recommend_eq movies_list similarity fetchDetails movie i row hidx hrow hlen

theorem C2_witness :
    titleIndex "A" catalogABCDEF = some 0 ∧
    simABCDEF.get? 0 = some [1, 9/10, 4/5, 7/10, 3/5, 1/2] ∧
    recommend catalogABCDEF simABCDEF (fun _ => networkFailureFallback) "A" =
      ((selectedIdxs 6).map
         (fun j => ((catalogABCDEF.get? j).getD defaultEntry).title),
       (selectedIdxs 6).map
         (fun j => ((fun _ => networkFailureFallback) : ℕ → MetadataSnapshot)
            ((catalogABCDEF.get? j).getD defaultEntry).movie_id)) :=
  ⟨rfl, rfl,
    C2_amended_order catalogABCDEF simABCDEF (fun _ => networkFailureFallback)
      "A" 0 [1, 9/10, 4/5, 7/10, 3/5, 1/2] rfl rfl (by decide)⟩

/-- C3: the spec claims the result never contains the queried title.
In the code it can: on the spec scenario, `recommend("A")` returns a name
list containing "A" itself, because the missing sort key makes the slice
`[1:6]` drop the highest index instead of the query's rank-0 entry (the
code's own comment says "Skip the first (itself)"). -/
theorem C3_code_result :
    "A" ∈ (recommend catalogABCDEF simABCDEF (fun _ => networkFailureFallback) "A").1 := by
  decide

/-- C4: for every title absent from the catalog, `recommend` returns two
empty sequences (the `IndexError` of `.index[0]` on an empty selection is
caught by the `except` block). -/
theorem C4_absent_title (movies_list : List MovieEntry)
    (similarity : List (List ℚ)) (fetchDetails : ℕ → MetadataSnapshot)
    (movie : String) (h : ∀ e ∈ movies_list, e.title ≠ movie) :
    recommend movies_list similarity fetchDetails movie = ([], []) := by
  simp only [recommend, titleIndex_eq_none h]

theorem C4_witness :
    (∀ e ∈ catalogABCDEF, e.title ≠ "Z") ∧
    recommend catalogABCDEF simABCDEF (fun _ => networkFailureFallback) "Z"
      = ([], []) :=
  ⟨by decide,
    C4_absent_title catalogABCDEF simABCDEF (fun _ => networkFailureFallback)
      "Z" (by decide)⟩

/-- C5: for every title present exactly once in a catalog of size n ≥ 2
with an n×n similarity matrix, `recommend` returns exactly min(5, n-1)
entries in each of its two output sequences, with no error path taken. -/
theorem C5_result_length (movies_list : List MovieEntry)
    (similarity : List (List ℚ)) (fetchDetails : ℕ → MetadataSnapshot)
    (movie : String)
    (hcount : movies_list.countP (fun e => e.title == movie) = 1)
    (hn : 2 ≤ movies_list.length)
    (hsq : similarity.length = movies_list.length)
    (hrows : ∀ row ∈ similarity, row.length = movies_list.length) :
    (recommend movies_list similarity fetchDetails movie).1.length
        = min 5 (movies_list.length - 1) ∧
      (recommend movies_list similarity fetchDetails movie).2.length
        = min 5 (movies_list.length - 1) := by
  have hex : ∃ e ∈ movies_list, e.title = movie := by
    have hpos : 0 < movies_list.countP (fun e => e.title == movie) := by omega
    rw [List.countP_pos_iff] at hpos
    simpa using hpos
  obtain ⟨i, hidx⟩ := titleIndex_isSome_of_mem hex
  have hi : i < movies_list.length := titleIndex_lt_length hidx
  obtain ⟨row, hrow⟩ : ∃ row, similarity.get? i = some row := by
    cases hg : similarity.get? i with
    | none => rw [List.get?_eq_none] at hg; omega
    | some r => exact ⟨r, rfl⟩
  have hrl : row.length = movies_list.length := hrows row (List.get?_mem hrow)
  rw [recommend_eq movies_list similarity fetchDetails movie i row hidx hrow hrl.le]
  simp [selectedIdxs, hrl]

theorem C5_witness :
    catalogABCDEF.countP (fun e => e.title == "A") = 1 ∧
    2 ≤ catalogABCDEF.length ∧
    simABCDEF.length = catalogABCDEF.length ∧
    (∀ row ∈ simABCDEF, row.length = catalogABCDEF.length) ∧
    ((recommend catalogABCDEF simABCDEF (fun _ => networkFailureFallback) "A").1.length
        = min 5 (catalogABCDEF.length - 1) ∧
      (recommend catalogABCDEF simABCDEF (fun _ => networkFailureFallback) "A").2.length
        = min 5 (catalogABCDEF.length - 1)) :=
  ⟨by decide, by decide, by decide, by decide,
    C5_result_length catalogABCDEF simABCDEF (fun _ => networkFailureFallback)
      "A" (by decide) (by decide) (by decide) (by decide)⟩

/-- C6: with a configured key, every transport-level failure (timeout,
connection error, non-2xx status after retries) yields the network-failure
fallback snapshot, whose rating is 0.0 and runtime "N/A"; the function is
total (all five snapshot fields are record fields, so always present). -/
theorem C6_transport_fallback (key : String) (movie_id : ℕ) (up : Upstream)
    (hk : key ≠ "") (hup : up.isTransportFailure = true) :
    fetch_movie_details (some key) movie_id up = networkFailureFallback ∧
      networkFailureFallback.rating = 0 ∧
      networkFailureFallback.runtime = .str "N/A" := by
  refine ⟨?_, rfl, rfl⟩
  have hkf : keyFalsy (some key) = false := by
    simp [keyFalsy, hk]
  cases up with
  | success data => simp [Upstream.isTransportFailure] at hup
  | timeout => simp [fetch_movie_details, hkf]
  | connectionError => simp [fetch_movie_details, hkf]
  | httpStatusError => simp [fetch_movie_details, hkf]

theorem C6_witness :
    ("k" : String) ≠ "" ∧ Upstream.timeout.isTransportFailure = true ∧
    (fetch_movie_details (some "k") 42 .timeout = networkFailureFallback ∧
      networkFailureFallback.rating = 0 ∧
      networkFailureFallback.runtime = .str "N/A") :=
  ⟨by decide, rfl, C6_transport_fallback "k" 42 .timeout (by decide) rfl⟩

/-- C7 counterexample: the claim "rating is always in [0.0, 10.0]" fails
if the upstream `vote_average` is itself out of range: the code does not
clamp, so vote_average = 11 yields rating 11 > 10. -/
theorem C7_counterexample :
    (fetch_movie_details (some "k") 603
        (.success { vote_average := some 11 })).rating = 11 ∧
      ¬ ((fetch_movie_details (some "k") 603
        (.success { vote_average := some 11 })).rating ≤ 10) := by
  have hkf : keyFalsy (some "k") = false := by decide
  have hfetch : fetch_movie_details (some "k") 603 (.success { vote_average := some 11 })
      = successSnapshot { vote_average := some 11 } := by
    simp [fetch_movie_details, hkf]
  rw [hfetch]
  constructor <;>
    norm_num [successSnapshot, pyGet, pyRound1, roundHalfEven, Rat.floor_def']

/-- C7 (amended): for every outcome whose successful payload carries a
`vote_average` in [0, 10] (or none at all), the returned rating is in
[0.0, 10.0] and is an integer number of tenths (one decimal place). -/
theorem C7_rating_range (key : String) (movie_id : ℕ) (up : Upstream)
    (hk : key ≠ "")
    (hva : ∀ data q, up = .success data → data.vote_average = some q →
      0 ≤ q ∧ q ≤ 10) :
    0 ≤ (fetch_movie_details (some key) movie_id up).rating ∧
      (fetch_movie_details (some key) movie_id up).rating ≤ 10 ∧
      ∃ z : ℤ, (fetch_movie_details (some key) movie_id up).rating = (z : ℚ) / 10 := by
  have hkf : keyFalsy (some key) = false := by simp [keyFalsy, hk]
  cases up with
  | success data =>
      have hbounds : 0 ≤ data.vote_average.getD 0 ∧ data.vote_average.getD 0 ≤ 10 := by
        cases hv : data.vote_average with
        | none => simp
        | some q => simpa using hva data q rfl hv
      have hr : (fetch_movie_details (some key) movie_id (.success data)).rating
          = pyRound1 (data.vote_average.getD 0) := by
        simp [fetch_movie_details, hkf, successSnapshot]
      rw [hr]
      exact ⟨pyRound1_nonneg hbounds.1, pyRound1_le_ten hbounds.2,
        roundHalfEven (10 * data.vote_average.getD 0), rfl⟩
  | timeout =>
      refine ⟨?_, ?_, 0, ?_⟩ <;> simp [fetch_movie_details, hkf, networkFailureFallback]
  | connectionError =>
      refine ⟨?_, ?_, 0, ?_⟩ <;> simp [fetch_movie_details, hkf, networkFailureFallback]
  | httpStatusError =>
      refine ⟨?_, ?_, 0, ?_⟩ <;> simp [fetch_movie_details, hkf, networkFailureFallback]

theorem C7_witness :
    ("k" : String) ≠ "" ∧
    (0 ≤ (fetch_movie_details (some "k") 603
        (.success { vote_average := some (77/10) })).rating ∧
      (fetch_movie_details (some "k") 603
        (.success { vote_average := some (77/10) })).rating ≤ 10 ∧
      ∃ z : ℤ, (fetch_movie_details (some "k") 603
        (.success { vote_average := some (77/10) })).rating = (z : ℚ) / 10) :=
  ⟨by decide,
    C7_rating_range "k" 603 (.success { vote_average := some (77/10) })
      (by decide)
      (fun data q hdata hq => by
        cases hdata
        simp only [Option.some.injEq] at hq
        constructor <;> rw [← hq] <;> norm_num)⟩

theorem fetch_success (key : String) (movie_id : ℕ) (data : TMDBData)
    (hk : key ≠ "") :
    fetch_movie_details (some key) movie_id (.success data) = successSnapshot data := by
  have hkf : keyFalsy (some key) = false := by simp [keyFalsy, hk]
  simp [fetch_movie_details, hkf]

/-- C8: field mapping of a successful (2xx) response: absent poster path
(key missing or JSON null) yields the placeholder URL, a present non-empty
path is prefixed with the image base; absent overview / release date /
vote_average / runtime keys fall back to their defaults; a present
vote_average is rounded to one decimal place (7.666 becomes 7.7); a
present runtime passes through unchanged. -/
theorem C8_success_mapping (key : String) (movie_id : ℕ) (data : TMDBData)
    (hk : key ≠ "") :
    (pyGet data.poster_path = none →
      (fetch_movie_details (some key) movie_id (.success data)).poster_path
        = "https://via.placeholder.com/500x750?text=No+Image+Available") ∧
    (∀ p, pyGet data.poster_path = some p → p ≠ "" →
      (fetch_movie_details (some key) movie_id (.success data)).poster_path
        = "https://image.tmdb.org/t/p/w500/" ++ p) ∧
    (data.overview = none →
      (fetch_movie_details (some key) movie_id (.success data)).overview
        = .str "No overview available") ∧
    (data.release_date = none →
      (fetch_movie_details (some key) movie_id (.success data)).release_date
        = .str "Release date unknown") ∧
    (data.vote_average = none →
      (fetch_movie_details (some key) movie_id (.success data)).rating = 0) ∧
    (∀ q, data.vote_average = some q →
      (fetch_movie_details (some key) movie_id (.success data)).rating
        = pyRound1 q) ∧
    pyRound1 (7666/1000) = 77/10 ∧
    (data.runtime = none →
      (fetch_movie_details (some key) movie_id (.success data)).runtime
        = .str "N/A") ∧
    (∀ r, data.runtime = some r →
      (fetch_movie_details (some key) movie_id (.success data)).runtime
        = (match r with | none => JVal.null | some q => JVal.num q)) := by
  rw [fetch_success key movie_id data hk]
  refine ⟨?_, ?_, ?_, ?_, ?_, ?_, ?_, ?_, ?_⟩
  · intro hp; simp [successSnapshot, hp]
  · intro p hp hpne; simp [successSnapshot, hp, hpne]
  · intro h; simp [successSnapshot, h]
  · intro h; simp [successSnapshot, h]
  · intro h
    simp only [successSnapshot, h, Option.getD_none]
    norm_num [pyRound1, roundHalfEven, Rat.floor_def']
  · intro q h; simp [successSnapshot, h]
  · norm_num [pyRound1, roundHalfEven, Rat.floor_def']
  · intro h; simp [successSnapshot, h]
  · intro r h; cases r <;> simp [successSnapshot, h]

/-- Concrete 2xx payload used to witness the success-path mapping. -/
def sampleData : TMDBData :=
  { poster_path := some (some "abc.jpg")
    overview := none
    release_date := none
    vote_average := some (7666/1000)
    runtime := none }

theorem C8_witness :
    ("k" : String) ≠ "" ∧
    ((pyGet sampleData.poster_path = none →
      (fetch_movie_details (some "k") 603 (.success sampleData)).poster_path
        = "https://via.placeholder.com/500x750?text=No+Image+Available") ∧
    (∀ p, pyGet sampleData.poster_path = some p → p ≠ "" →
      (fetch_movie_details (some "k") 603 (.success sampleData)).poster_path
        = "https://image.tmdb.org/t/p/w500/" ++ p) ∧
    (sampleData.overview = none →
      (fetch_movie_details (some "k") 603 (.success sampleData)).overview
        = .str "No overview available") ∧
    (sampleData.release_date = none →
      (fetch_movie_details (some "k") 603 (.success sampleData)).release_date
        = .str "Release date unknown") ∧
    (sampleData.vote_average = none →
      (fetch_movie_details (some "k") 603 (.success sampleData)).rating = 0) ∧
    (∀ q, sampleData.vote_average = some q →
      (fetch_movie_details (some "k") 603 (.success sampleData)).rating
        = pyRound1 q) ∧
    pyRound1 (7666/1000) = 77/10 ∧
    (sampleData.runtime = none →
      (fetch_movie_details (some "k") 603 (.success sampleData)).runtime
        = .str "N/A") ∧
    (∀ r, sampleData.runtime = some r →
      (fetch_movie_details (some "k") 603 (.success sampleData)).runtime
        = (match r with | none => JVal.null | some q => JVal.num q))) :=
  ⟨by decide, C8_success_mapping "k" 603 sampleData (by decide)⟩

/-- C9: with no credential configured (`None` or empty string, both falsy
in Python), `fetch_movie_details` returns the "No+API+Key" fallback,
whatever the network would have done (so no network call can influence
the result), and the fallback has exactly the documented fields. -/
theorem C9_no_key (movie_id : ℕ) (up up' : Upstream) :
    fetch_movie_details none movie_id up = noApiKeyFallback ∧
      fetch_movie_details (some "") movie_id up = noApiKeyFallback ∧
      fetch_movie_details none movie_id up = fetch_movie_details none movie_id up' ∧
      noApiKeyFallback.poster_path
        = "https://via.placeholder.com/500x750?text=No+API+Key" ∧
      noApiKeyFallback.overview = .str "API key not configured" ∧
      noApiKeyFallback.release_date = .str "Unknown" ∧
      noApiKeyFallback.rating = 0 ∧
      noApiKeyFallback.runtime = .str "N/A" :=
  ⟨rfl, rfl, rfl, rfl, rfl, rfl, rfl, rfl⟩

/-- C10: on a successful response whose `poster_path` key is present but
falsy (JSON null or empty string), the placeholder URL is used — the
branch tests Python truthiness of the value, not presence of the key. -/
theorem C10_falsy_poster (key : String) (movie_id : ℕ) (data : TMDBData)
    (hk : key ≠ "")
    (hp : data.poster_path = some none ∨ data.poster_path = some (some "")) :
    (fetch_movie_details (some key) movie_id (.success data)).poster_path
      = "https://via.placeholder.com/500x750?text=No+Image+Available" := by
  rw [fetch_success key movie_id data hk]
  rcases hp with hp | hp <;> simp [successSnapshot, pyGet, hp]

theorem C10_witness :
    ("k" : String) ≠ "" ∧
    (({ poster_path := some none } : TMDBData).poster_path = some none ∨
      ({ poster_path := some none } : TMDBData).poster_path = some (some "")) ∧
    (fetch_movie_details (some "k") 603
        (.success { poster_path := some none })).poster_path
      = "https://via.placeholder.com/500x750?text=No+Image+Available" :=
  ⟨by decide, Or.inl rfl,
    C10_falsy_poster "k" 603 { poster_path := some none } (by decide) (Or.inl rfl)⟩

end MovieMate
